import Mathlib

/-!
Verification of the overlay/modal subsystem of the `fixtures` admin-console
front end. The definitions below are a shallow embedding of the JavaScript
classes in the repository:

* `OverlayManager` (overlay-stack counter) — `src/unnamed/part_000`, lines 26-53;
* `BaseModal` and its variants (`EditCreateModal`, `ErrorModal`,
  `DialogueModal`) — `src/unnamed/part_000`, lines 61-350;
* `Preloader` — `src/unnamed/part_000`, lines 356-417;
* the global entry points `showError` / `showConfirm` / `showEditCreateForm`
  — `src/unnamed/part_000`, lines 427-460;
* the older duplicate implementation in `src/frontend/js/main.js` (no overlay
  manager, backdrop click closes, `confirm` auto-closes), embedded in the
  `MainJs` namespace.

DOM side effects are modelled explicitly: the shared counter is an `Int`,
every call into the overlay manager is recorded in a trace (`ovTrace`), CSS
classes become booleans, callback invocations become counters, and event
listener behaviour becomes functions on an explicit event record.
-/

namespace Fixtures

/-- A call into the shared overlay manager: `incrementOverlay` or
`decrementOverlay`. -/
inductive OvOp where
  | increment
  | decrement
deriving DecidableEq, Repr

namespace OverlayManager

/-- Mirrors `incrementOverlay()` (`part_000` line 31): `this.overlayCount++`.
(The 0→1 transition additionally disables body interaction; body CSS is
modelled separately through `isActive`.) -/
def incrementOverlay (c : Int) : Int := c + 1

/-- Mirrors `decrementOverlay()` (`part_000` line 40): `this.overlayCount--`, then
`if (this.overlayCount <= 0) this.overlayCount = 0`. -/
def decrementOverlay (c : Int) : Int :=
  if c - 1 ≤ 0 then 0 else c - 1

/-- Mirrors `isActive()` (`part_000` line 50): `this.overlayCount > 0`. -/
def isActive (c : Int) : Bool := decide (0 < c)

/-- One call of the manager, as selected by an `OvOp`. -/
def apply (c : Int) : OvOp → Int
  | .increment => incrementOverlay c
  | .decrement => decrementOverlay c

/-- Run a sequence of manager calls from counter value `c`. -/
def runFrom (c : Int) (ops : List OvOp) : Int :=
  ops.foldl apply c

/-- Run a sequence of manager calls from the initial state
(`overlayCount = 0`, set in the constructor at line 28). -/
def run (ops : List OvOp) : Int := runFrom 0 ops

end OverlayManager

/-- Spec-side effective count: the number of increments minus the number of
decrements, floored at zero after each step (natural-number subtraction
floors at zero). -/
def flooredFrom (n : Nat) (ops : List OvOp) : Nat :=
  ops.foldl (fun n op => match op with
    | .increment => n + 1
    | .decrement => n - 1) n

/-- Spec-side effective count starting from zero. -/
def flooredCount (ops : List OvOp) : Nat := flooredFrom 0 ops

/-- State of one `BaseModal` instance together with the shared overlay
manager it talks to (`part_000`, lines 61-191). CSS classes become booleans,
registered callbacks become presence flags plus invocation counters, and
`ovTrace` records every call this instance makes into the shared
`overlayManager`, in order. -/
structure ModalWorld where
  /-- Mirrors `overlayManager.overlayCount`. -/
  overlayCount : Int
  /-- Trace of `incrementOverlay` / `decrementOverlay` calls issued so far. -/
  ovTrace : List OvOp
  /-- Whether `this.overlay` has the CSS class `show` (open vs closed). -/
  modalShow : Bool
  /-- Whether `this.escHandler` is installed (non-null). -/
  escInstalled : Bool
  /-- Mirrors `this.onConfirm !== null`. -/
  hasOnConfirm : Bool
  /-- Mirrors `this.onCancel !== null`. -/
  hasOnCancel : Bool
  /-- Number of times `this.onConfirm` has been invoked. -/
  confirmCalls : Nat
  /-- Number of times `this.onCancel` has been invoked (always with no
  payload: the source calls `this.onCancel()` bare). -/
  cancelCalls : Nat
  /-- Mirrors `this.title`. -/
  title : String
  /-- Mirrors `this.type` (`default`, `error`, ...). -/
  type : String
  /-- Mirrors `this.message` (used by `ErrorModal` / `DialogueModal`). -/
  message : String
  /-- Rendered markup of the `modal-body` element (set via `setContent`). -/
  bodyHTML : String
  /-- Rendered markup of the `modal-footer` element (set via `setFooter`). -/
  footerHTML : String
deriving DecidableEq, Repr

/-- A call to `overlayManager.incrementOverlay()` made by an instance:
updates the shared counter and records the call in the trace. -/
def mgrIncrement (w : ModalWorld) : ModalWorld :=
  { w with overlayCount := OverlayManager.incrementOverlay w.overlayCount,
           ovTrace := w.ovTrace ++ [.increment] }

/-- A call to `overlayManager.decrementOverlay()` made by an instance. -/
def mgrDecrement (w : ModalWorld) : ModalWorld :=
  { w with overlayCount := OverlayManager.decrementOverlay w.overlayCount,
           ovTrace := w.ovTrace ++ [.decrement] }

namespace BaseModal

/-- Mirrors `BaseModal.open()` (`part_000`, lines 143-160): adds the `show` class,
calls `overlayManager.incrementOverlay()`, and installs the escape-key
handler. There is no guard on the current open state. (Named `openModal`
because `open` is reserved in Lean.) -/
def openModal (w : ModalWorld) : ModalWorld :=
  let w := { w with modalShow := true }
  let w := mgrIncrement w
  { w with escInstalled := true }

/-- Mirrors `BaseModal.close()` (`part_000`, lines 162-177): removes the `show`
class, calls `overlayManager.decrementOverlay()`, removes the escape-key
handler if installed, and invokes `this.onCancel()` if registered. There is
no guard on the current open state. -/
def close (w : ModalWorld) : ModalWorld :=
  let w := { w with modalShow := false }
  let w := mgrDecrement w
  let w := if w.escInstalled then { w with escInstalled := false } else w
  if w.hasOnCancel then { w with cancelCalls := w.cancelCalls + 1 } else w

/-- Mirrors `BaseModal.confirm()` (`part_000`, lines 185-190): invokes
`this.onConfirm()` if registered; deliberately does not close. -/
def confirm (w : ModalWorld) : ModalWorld :=
  if w.hasOnConfirm then { w with confirmCalls := w.confirmCalls + 1 } else w

/-- The `keydown` listener installed by `open()` (`part_000`, lines
154-159): while installed, an `Escape` key press triggers `this.close()`. -/
def escKeydown (w : ModalWorld) (key : String) : ModalWorld :=
  if w.escInstalled && (key == "Escape") then close w else w

/-- The close-button click listener (`part_000`, line 111): `this.close()`. -/
def closeButtonClick (w : ModalWorld) : ModalWorld := close w

end BaseModal

/-- A DOM event, as far as the overlay listeners can observe or affect it. -/
structure UiEvent where
  /-- Whether `e.target` is the overlay backdrop element itself. -/
  targetIsOverlay : Bool
  /-- Whether `e.stopPropagation()` has been called. -/
  stopped : Bool
  /-- Whether `e.preventDefault()` has been called. -/
  prevented : Bool
deriving DecidableEq, Repr

namespace BaseModal

/-- The overlay `click` listener (`part_000`, lines 85-88): calls
`e.stopPropagation()` and deliberately does not close the modal. -/
def overlayClick (w : ModalWorld) (e : UiEvent) : ModalWorld × UiEvent :=
  (w, { e with stopped := true })

/-- The overlay `wheel` listener (`part_000`, lines 91-93):
`e.preventDefault()`. -/
def overlayWheel (w : ModalWorld) (e : UiEvent) : ModalWorld × UiEvent :=
  (w, { e with prevented := true })

/-- The overlay `touchmove` listener (`part_000`, lines 95-97):
`e.preventDefault()`. -/
def overlayTouchmove (w : ModalWorld) (e : UiEvent) : ModalWorld × UiEvent :=
  (w, { e with prevented := true })

end BaseModal

/-- A freshly constructed `BaseModal` before `open()` is called: the shared
counter starts at 0 (manager constructor, line 28), no CSS `show` class, no
escape handler, no callbacks registered. -/
def freshModal : ModalWorld :=
  { overlayCount := 0, ovTrace := [], modalShow := false,
    escInstalled := false, hasOnConfirm := false, hasOnCancel := false,
    confirmCalls := 0, cancelCalls := 0, title := "", type := "default",
    message := "", bodyHTML := "", footerHTML := "" }

/-- JavaScript `a || b` on strings: the empty string is the only falsy
string value that occurs here (absent option fields are modelled as `""`). -/
def jsOr (s d : String) : String := if s = "" then d else s

/-- The `modal-body` markup built by `ErrorModal.setupError` and
`ErrorModal.setMessage` (`part_000`, lines 296-300 and 311-315). -/
def errorBodyHTML (message : String) : String :=
  "\n      <div class=\"alert alert-danger\">\n        <span>"
    ++ message ++ "</span>\n      </div>\n    "

/-- The `modal-footer` markup set by `ErrorModal.setupError`
(`part_000`, line 303). -/
def errorFooterHTML : String :=
  "<button class=\"btn btn-danger\" id=\"error-close-btn\">Close</button>"

namespace ErrorModal

/-- Mirrors `new ErrorModal(options)` (`part_000`, lines 286-307): forces
`type = "error"`, defaults the title to `"Error"` and the message to the
stock text, then `setupError` renders body and footer. `c` and `tr` are the
shared manager's counter and call trace at construction time. -/
def make (c : Int) (tr : List OvOp) (title message : String) : ModalWorld :=
  { overlayCount := c, ovTrace := tr, modalShow := false,
    escInstalled := false, hasOnConfirm := false, hasOnCancel := false,
    confirmCalls := 0, cancelCalls := 0,
    title := jsOr title "Error", type := "error",
    message := jsOr message "An error occurred. Please try again.",
    bodyHTML := errorBodyHTML (jsOr message "An error occurred. Please try again."),
    footerHTML := errorFooterHTML }

/-- Mirrors `ErrorModal.setMessage(message)` (`part_000`, lines 309-318): stores the
new message and re-renders the body markup in place. It touches nothing
else: no overlay-manager call, no CSS class change, no listener change. -/
def setMessage (w : ModalWorld) (message : String) : ModalWorld :=
  { w with message := message, bodyHTML := errorBodyHTML message }

end ErrorModal

/-- The `modal-footer` markup set by `DialogueModal.setupDialogue`
(`part_000`, lines 340-344). -/
def dialogueFooterHTML (cancelText confirmText : String)
    (isDangerous : Bool) : String :=
  "\n      <button class=\"btn btn-secondary\" id=\"dialogue-cancel-btn\">"
    ++ cancelText ++ "</button>\n      <button class=\""
    ++ (if isDangerous then "btn btn-danger" else "btn btn-primary")
    ++ "\" id=\"dialogue-confirm-btn\">" ++ confirmText ++ "</button>\n    "

namespace DialogueModal

/-- Mirrors `new DialogueModal(options)` (`part_000`, lines 325-349): forces
`type = "default"`, defaults message/labels, then `setupDialogue` renders
`<p>${message}</p>` and the two footer buttons. `hasOnConfirm` records
whether `options.onConfirm` was supplied. -/
def make (c : Int) (tr : List OvOp) (title message confirmText
    cancelText : String) (isDangerous hasOnConfirm : Bool) : ModalWorld :=
  let msg := jsOr message ""
  { overlayCount := c, ovTrace := tr, modalShow := false,
    escInstalled := false, hasOnConfirm := hasOnConfirm,
    hasOnCancel := false, confirmCalls := 0, cancelCalls := 0,
    title := title, type := "default", message := msg,
    bodyHTML := "<p>" ++ msg ++ "</p>",
    footerHTML := dialogueFooterHTML (jsOr cancelText "Cancel")
      (jsOr confirmText "Confirm") isDangerous }

end DialogueModal

/-- The field kinds admitted by the spec's data model (§3): `text`,
`textarea`, `select`. (The source forwards `field.type` as a raw string;
the three kinds above are the ones the system uses.) -/
inductive FieldKind where
  | text
  | textarea
  | select
deriving DecidableEq, Repr

/-- A form-field descriptor as consumed by `EditCreateModal.createInputField`
(`part_000`, line 236): `{name, label, type, placeholder = "",
required = false, options = []}`, where each option is a
`{value, label}` pair. -/
structure Field where
  name : String
  label : String
  kind : FieldKind
  placeholder : String
  required : Bool
  options : List (String × String)
deriving DecidableEq, Repr

/-- The option values of a select field's descriptor. -/
def Field.optionValues (f : Field) : List String := f.options.map Prod.fst

/-- JavaScript property read `data[k]` with `undefined` modelled as `""`
(the source immediately applies the empty-string default); a later duplicate key wins, as
with repeated object assignment. -/
def jsGet (data : List (String × String)) (k : String) : String :=
  ((data.reverse).find? (fun p => p.1 == k)).elim "" Prod.snd

/-- The live value of a rendered form control right after `setupForm`.
For text/textarea the `value`/content attribute is the raw initial value
(`this.data[field.name]` with the empty-string default, line 211). For a select, `createInputField`
marks `selected` only an option whose value equals the initial value
(lines 246-249); when none matches, the browser falls back to the first
option — the empty `-- Select --` placeholder (line 245) — so the live
value is `""`. -/
def initValue (f : Field) (data : List (String × String)) : String :=
  let v := jsOr (jsGet data f.name) ""
  match f.kind with
  | .select => if f.optionValues.contains v then v else ""
  | _ => v

/-- Mirrors `EditCreateModal.createInputField(field, value)` (`part_000`, lines
235-255): renders one control's markup. -/
def createInputField (f : Field) (value : String) : String :=
  let requiredAttr := if f.required then "required" else ""
  match f.kind with
  | .textarea =>
      "<textarea class=\"form-control\" name=\"" ++ f.name ++ "\" id=\""
        ++ f.name ++ "\" placeholder=\"" ++ f.placeholder ++ "\" "
        ++ requiredAttr ++ ">" ++ value ++ "</textarea>"
  | .select =>
      "<select class=\"form-control\" name=\"" ++ f.name ++ "\" id=\""
        ++ f.name ++ "\" " ++ requiredAttr ++ ">"
        ++ "<option value=\"\">-- Select --</option>"
        ++ (f.options.map (fun opt =>
              "<option value=\"" ++ opt.1 ++ "\" "
                ++ (if opt.1 = value then "selected" else "") ++ ">"
                ++ opt.2 ++ "</option>")).foldl (· ++ ·) ""
        ++ "</select>"
  | .text =>
      "<input type=\"text\" class=\"form-control\" name=\"" ++ f.name
        ++ "\" id=\"" ++ f.name ++ "\" placeholder=\"" ++ f.placeholder
        ++ "\" value=\"" ++ value ++ "\" " ++ requiredAttr ++ " />"

/-- The form markup built by `EditCreateModal.setupForm` (`part_000`, lines
207-221), interpolating each field's raw initial value. -/
def formBodyHTML (fields : List Field)
    (data : List (String × String)) : String :=
  "<form id=\"edit-create-form\" class=\"edit-create-form\">"
    ++ (fields.map (fun f =>
          "\n        <div class=\"form-group\">\n          <label for=\""
            ++ f.name ++ "\">" ++ f.label ++ "</label>\n          "
            ++ createInputField f (jsOr (jsGet data f.name) "")
            ++ "\n        </div>\n      ")).foldl (· ++ ·) ""
    ++ "</form>"

/-- The footer markup set by `EditCreateModal.setupForm` (`part_000`, lines
224-227): Cancel plus Update/Create depending on edit mode. -/
def formFooterHTML (isEditMode : Bool) : String :=
  "\n      <button class=\"btn btn-secondary\" id=\"cancel-btn\">Cancel</button>\n      <button class=\"btn btn-primary\" id=\"submit-btn\">"
    ++ (if isEditMode then "Update" else "Create")
    ++ "</button>\n    "

/-- State of an `EditCreateModal`: the base modal state plus the live form
controls (`form` pairs each field descriptor with its current value) and
the payload most recently passed to `onConfirm`. -/
structure FormWorld extends ModalWorld where
  form : List (Field × String)
  isEditMode : Bool
  lastPayload : Option (List (String × String))
deriving DecidableEq, Repr

namespace EditCreateModal

/-- Mirrors `new EditCreateModal(options)` (`part_000`, lines 197-233): forces
`type = "default"`, stores fields/data/edit mode, and `setupForm` renders
the form body and the Cancel/Submit footer. `onCancel` is never supplied by
`showEditCreateForm`, so it is absent. -/
def make (c : Int) (tr : List OvOp) (title : String) (fields : List Field)
    (data : List (String × String)) (isEditMode hasOnConfirm : Bool) :
    FormWorld :=
  { overlayCount := c, ovTrace := tr, modalShow := false,
    escInstalled := false, hasOnConfirm := hasOnConfirm,
    hasOnCancel := false, confirmCalls := 0, cancelCalls := 0,
    title := title, type := "default", message := "",
    bodyHTML := formBodyHTML fields data,
    footerHTML := formFooterHTML isEditMode,
    form := fields.map (fun f => (f, initValue f data)),
    isEditMode := isEditMode, lastPayload := none }

/-- Mirrors `open()` inherited from `BaseModal`, lifted to the form state. -/
def openForm (w : FormWorld) : FormWorld :=
  { w with toModalWorld := BaseModal.openModal w.toModalWorld }

/-- Mirrors `close()` inherited from `BaseModal`, lifted to the form state. -/
def closeForm (w : FormWorld) : FormWorld :=
  { w with toModalWorld := BaseModal.close w.toModalWorld }

/-- JavaScript object assignment `data[key] = value` on an insertion-ordered
object: overwrite in place when the key exists, append otherwise. -/
def setKey (data : List (String × String)) (k v : String) :
    List (String × String) :=
  if data.any (fun p => p.1 == k) then
    data.map (fun p => if p.1 == k then (k, v) else p)
  else data ++ [(k, v)]

/-- Mirrors `EditCreateModal.getFormData()` (`part_000`, lines 257-265): iterate the
form's controls in DOM order (`new FormData(form)` yields one entry per
named control for text/textarea/select) and assign `data[key] = value`. -/
def getFormData (form : List (Field × String)) : List (String × String) :=
  form.foldl (fun d fv => setKey d fv.1.name fv.2) []

/-- Mirrors `form.checkValidity()` as the browser evaluates it for this form
(`part_000`, line 269): the only constraint the rendered markup carries is
`required`, and a required text/textarea/select fails exactly when its
submission value is the empty string (the select placeholder has
`value=""`). -/
def checkValidity (form : List (Field × String)) : Bool :=
  form.all (fun fv => !fv.1.required || fv.2 != "")

/-- Mirrors `EditCreateModal.submitForm()` (`part_000`, lines 267-279): bail out
(after `reportValidity`, which only paints hints) when validation fails;
otherwise collect the form data, invoke `onConfirm(formData)` if
registered, then `this.close()`. -/
def submitForm (w : FormWorld) : FormWorld :=
  if checkValidity w.form = false then w
  else
    let w :=
      if w.hasOnConfirm then
        { w with confirmCalls := w.confirmCalls + 1,
                 lastPayload := some (getFormData w.form) }
      else w
    closeForm w

end EditCreateModal

/-- Claim-side predicate (spec §4.4): every select field's current value is
present in its descriptor's options list. -/
def selectsFromOptions (form : List (Field × String)) : Bool :=
  form.all (fun fv => fv.1.kind != .select || fv.1.optionValues.contains fv.2)

/-- Claim-side predicate: every field marked required has a non-empty
value. -/
def requiredFilled (form : List (Field × String)) : Bool :=
  form.all (fun fv => !fv.1.required || fv.2 != "")

/-- State of the `Preloader` together with the shared manager
(`part_000`, lines 356-417). -/
structure PreloaderWorld where
  /-- Mirrors `overlayManager.overlayCount`. -/
  overlayCount : Int
  /-- Trace of manager calls issued so far. -/
  ovTrace : List OvOp
  /-- Mirrors `this.element !== null` (set by `init`, never cleared). -/
  hasElement : Bool
  /-- Mirrors `this.isVisible`. -/
  isVisible : Bool
  /-- Whether the element carries the CSS class `show`. -/
  elemShow : Bool
deriving DecidableEq, Repr

namespace Preloader

/-- Mirrors `Preloader.show()` (`part_000`, lines 385-396): guarded by
`this.element && !this.isVisible`; adds the `show` class, marks visible,
and calls `incrementOverlay()`. (Named `show'` because `show` is reserved
in Lean.) -/
def show' (w : PreloaderWorld) : PreloaderWorld :=
  if w.hasElement && !w.isVisible then
    { w with elemShow := true, isVisible := true,
             overlayCount := OverlayManager.incrementOverlay w.overlayCount,
             ovTrace := w.ovTrace ++ [.increment] }
  else w

/-- Mirrors `Preloader.hide()` (`part_000`, lines 398-406): guarded by
`this.element && this.isVisible`; removes the `show` class, marks not
visible, and calls `decrementOverlay()`. -/
def hide (w : PreloaderWorld) : PreloaderWorld :=
  if w.hasElement && w.isVisible then
    { w with elemShow := false, isVisible := false,
             overlayCount := OverlayManager.decrementOverlay w.overlayCount,
             ovTrace := w.ovTrace ++ [.decrement] }
  else w

end Preloader

/-- Mirrors `showError(message, title = "Error")` (`part_000`, lines 427-433):
constructs an `ErrorModal` and opens it. The function body has no `return`
statement, so the caller receives nothing; the second component models the
returned value. -/
def showError (c : Int) (tr : List OvOp) (message title : String) :
    ModalWorld × Option ModalWorld :=
  let m := BaseModal.openModal (ErrorModal.make c tr title message)
  (m, none)

/-- Mirrors `showConfirm(message, onConfirm, options)` (`part_000`, lines 436-447):
constructs a `DialogueModal` with defaulted options, opens it, and returns
it. Absent string options are modelled as `""` (JavaScript `||`
defaulting). -/
def showConfirm (c : Int) (tr : List OvOp) (message : String)
    (hasOnConfirm : Bool) (optTitle optConfirmText optCancelText : String)
    (optIsDangerous : Bool) : ModalWorld × Option ModalWorld :=
  let m := DialogueModal.make c tr (jsOr optTitle "Confirmation") message
    (jsOr optConfirmText "Confirm") (jsOr optCancelText "Cancel")
    optIsDangerous hasOnConfirm
  let m := BaseModal.openModal m
  (m, some m)

/-- Mirrors `showEditCreateForm(fields, onSubmit, options)` (`part_000`, lines
450-460): constructs an `EditCreateModal` (title defaulted from the edit
mode), opens it, and returns it. -/
def showEditCreateForm (c : Int) (tr : List OvOp) (fields : List Field)
    (hasOnConfirm : Bool) (optTitle : String)
    (data : List (String × String)) (isEditMode : Bool) :
    FormWorld × Option FormWorld :=
  let m := EditCreateModal.make c tr
    (jsOr optTitle (if isEditMode then "Edit" else "Create"))
    fields data isEditMode hasOnConfirm
  let m := EditCreateModal.openForm m
  (m, some m)

namespace MainJs

/-- State of one `BaseModal` of the older duplicate implementation
(`src/frontend/js/main.js`, lines 5-102). That version has no overlay
manager: `open`/`close` toggle `document.body.style.overflow` directly. -/
structure LegacyModalWorld where
  /-- Whether `this.overlay` has the CSS class `show`. -/
  modalShow : Bool
  /-- Whether `document.body.style.overflow` is `hidden`. -/
  bodyOverflowHidden : Bool
  /-- Mirrors `this.onConfirm !== null`. -/
  hasOnConfirm : Bool
  /-- Mirrors `this.onCancel !== null`. -/
  hasOnCancel : Bool
  /-- Number of times `this.onConfirm` has been invoked. -/
  confirmCalls : Nat
  /-- Number of times `this.onCancel` has been invoked. -/
  cancelCalls : Nat
deriving DecidableEq, Repr

/-- Mirrors `BaseModal.open()` (`main.js`, lines 77-80). -/
def openModal (w : LegacyModalWorld) : LegacyModalWorld :=
  { w with modalShow := true, bodyOverflowHidden := true }

/-- Mirrors `BaseModal.close()` (`main.js`, lines 82-88): removes the `show` class,
restores body overflow, and invokes `onCancel` if registered. -/
def close (w : LegacyModalWorld) : LegacyModalWorld :=
  let w := { w with modalShow := false, bodyOverflowHidden := false }
  if w.hasOnCancel then { w with cancelCalls := w.cancelCalls + 1 } else w

/-- Mirrors `BaseModal.confirm()` (`main.js`, lines 96-101): invokes `onConfirm` if
registered, then calls `this.close()`. -/
def confirm (w : LegacyModalWorld) : LegacyModalWorld :=
  let w :=
    if w.hasOnConfirm then { w with confirmCalls := w.confirmCalls + 1 }
    else w
  close w

/-- The overlay `click` listener (`main.js`, lines 27-31): a click whose
target is the backdrop itself calls `this.close()`. -/
def overlayClick (w : LegacyModalWorld) (e : UiEvent) :
    LegacyModalWorld × UiEvent :=
  if e.targetIsOverlay then (close w, e) else (w, e)

/-- A legacy modal that has been opened, with both callbacks registered. -/
def legacyOpenModal : LegacyModalWorld :=
  { modalShow := true, bodyOverflowHidden := true, hasOnConfirm := true,
    hasOnCancel := true, confirmCalls := 0, cancelCalls := 0 }

end MainJs

/-- A one-field form modal whose single field is a non-required select with
one declared option, left on the placeholder: the state produced by
`showEditCreateForm` with that field and no initial data. -/
def selectOnlyFormOpen : FormWorld :=
  (showEditCreateForm 0 []
    [{ name := "choice", label := "Choice", kind := .select,
       placeholder := "", required := false, options := [("a", "A")] }]
    true "" [] false).1

/-- A one-field form modal whose single required text field is filled. -/
def filledFormOpen : FormWorld :=
  (showEditCreateForm 0 []
    [{ name := "team", label := "Team", kind := .text,
       placeholder := "", required := true, options := [] }]
    true "" [("team", "Arsenal")] false).1

/-- A freshly constructed preloader: element created by `init`, not yet
visible, shared counter at 0. -/
def preloaderFresh : PreloaderWorld :=
  { overlayCount := 0, ovTrace := [], hasElement := true,
    isVisible := false, elemShow := false }

/- ======================================================================
   Theorems
   ====================================================================== -/

theorem apply_toNat (c : Int) (hc : 0 ≤ c) (op : OvOp) :
    0 ≤ OverlayManager.apply c op ∧
      (OverlayManager.apply c op).toNat =
        (match op with
          | .increment => c.toNat + 1
          | .decrement => c.toNat - 1) := by
  cases op with
  | increment =>
      constructor
      · simpa [OverlayManager.apply, OverlayManager.incrementOverlay] using by omega
      · simp only [OverlayManager.apply, OverlayManager.incrementOverlay]
        omega
  | decrement =>
      simp only [OverlayManager.apply, OverlayManager.decrementOverlay]
      by_cases h : c - 1 ≤ 0
      · simp only [if_pos h]
        omega
      · simp only [if_neg h]
        omega

theorem runFrom_eq_flooredFrom (ops : List OvOp) :
    ∀ c : Int, 0 ≤ c →
      OverlayManager.runFrom c ops = ((flooredFrom c.toNat ops : Nat) : Int) := by
  induction ops with
  | nil =>
      intro c hc
      simp [OverlayManager.runFrom, flooredFrom, Int.toNat_of_nonneg hc]
  | cons op ops ih =>
      intro c hc
      have h := apply_toNat c hc op
      have hrec := ih (OverlayManager.apply c op) h.1
      simp only [OverlayManager.runFrom, List.foldl_cons] at hrec ⊢
      rw [hrec]
      simp only [flooredFrom, List.foldl_cons]
      rw [h.2]

theorem run_eq_flooredCount (ops : List OvOp) :
    OverlayManager.run ops = ((flooredCount ops : Nat) : Int) := by
  simpa [OverlayManager.run, flooredCount] using
    runFrom_eq_flooredFrom ops 0 le_rfl

/-- C1: for every finite sequence of `incrementOverlay`/`decrementOverlay`
calls from the initial state, `isActive` is true exactly when the effective
count (increments minus decrements, floored at zero at each step) is
positive, and the counter is never negative after any prefix of the
sequence. -/
theorem overlayCounter_flooring (ops : List OvOp) :
    OverlayManager.isActive (OverlayManager.run ops)
        = decide (0 < flooredCount ops)
      ∧ (∀ n : Nat, 0 ≤ OverlayManager.run (ops.take n)) := by
  constructor
  · rw [OverlayManager.isActive, run_eq_flooredCount]
    simp
  · intro n
    rw [run_eq_flooredCount]
    exact Int.ofNat_nonneg _

/-- C2 (code evaluation at the failing input): `open()` is not guarded by
the modal's open state, so a second `open()` on an already-open modal calls
`incrementOverlay` a second time and drives the shared counter to 2 instead
of leaving it at 1. -/
theorem double_open_double_counts :
    (BaseModal.openModal freshModal).modalShow = true
      ∧ (BaseModal.openModal (BaseModal.openModal freshModal)).ovTrace
          = [.increment, .increment]
      ∧ (BaseModal.openModal (BaseModal.openModal freshModal)).overlayCount
          = 2 := by
  refine ⟨rfl, rfl, rfl⟩

/-- C3: a single call to `close()` issues exactly one `decrementOverlay`
call, uninstalls the escape-key listener, removes the `show` class, and
invokes `onCancel` exactly once when one is registered (and not at all
otherwise); moreover the escape key while the listener is installed, and
the close button, both route through this same `close()`. -/
theorem close_releases_exactly_once (w : ModalWorld) :
    (BaseModal.close w).ovTrace = w.ovTrace ++ [.decrement]
      ∧ (BaseModal.close w).escInstalled = false
      ∧ (BaseModal.close w).modalShow = false
      ∧ (BaseModal.close w).cancelCalls
          = w.cancelCalls + (if w.hasOnCancel then 1 else 0)
      ∧ BaseModal.escKeydown w "Escape"
          = (if w.escInstalled then BaseModal.close w else w)
      ∧ BaseModal.closeButtonClick w = BaseModal.close w := by
  cases hesc : w.escInstalled <;> cases hcan : w.hasOnCancel <;>
    simp [BaseModal.close, BaseModal.escKeydown, BaseModal.closeButtonClick,
      mgrDecrement, hesc, hcan]

/-- C10: `close()` is unguarded, so a second `close()` on the same modal
issues a second `decrementOverlay` call and invokes `onCancel` a second
time; concretely, when two overlays are open (shared counter 2), closing
one modal twice drives the counter to 0 and deactivates the page-level
block even though the other overlay is still open. -/
theorem double_close_double_decrements (w : ModalWorld)
    (h2 : w.overlayCount = 2) :
    (BaseModal.close (BaseModal.close w)).ovTrace
        = w.ovTrace ++ [.decrement, .decrement]
      ∧ (BaseModal.close (BaseModal.close w)).cancelCalls
          = w.cancelCalls + (if w.hasOnCancel then 2 else 0)
      ∧ (BaseModal.close (BaseModal.close w)).overlayCount = 0
      ∧ OverlayManager.isActive
          (BaseModal.close (BaseModal.close w)).overlayCount = false := by
  unfold BaseModal.close mgrDecrement OverlayManager.decrementOverlay
    OverlayManager.isActive
  cases hesc : w.escInstalled <;> cases hcan : w.hasOnCancel <;>
    simp [hesc, hcan, h2]

theorem close_spec (w : ModalWorld) :
    BaseModal.close w =
      { w with modalShow := false,
               overlayCount := OverlayManager.decrementOverlay w.overlayCount,
               ovTrace := w.ovTrace ++ [.decrement],
               escInstalled := false,
               cancelCalls := w.cancelCalls
                 + (if w.hasOnCancel then 1 else 0) } := by
  cases hesc : w.escInstalled <;> cases hcan : w.hasOnCancel <;>
    simp [BaseModal.close, mgrDecrement, hesc, hcan]

/-- C4 (counterexample): in the duplicate implementation
`src/frontend/js/main.js`, `confirm()` calls `this.close()` after the
callback, so confirming an open modal with registered callbacks closes it
and even fires `onCancel`. -/
theorem legacy_confirm_closes :
    MainJs.legacyOpenModal.modalShow = true
      ∧ (MainJs.confirm MainJs.legacyOpenModal).modalShow = false
      ∧ (MainJs.confirm MainJs.legacyOpenModal).confirmCalls = 1
      ∧ (MainJs.confirm MainJs.legacyOpenModal).cancelCalls = 1 := by
  refine ⟨rfl, rfl, rfl, rfl⟩

/-- C4 (amended): in the overlay-managed implementation (`part_000`),
`confirm()` invokes `onConfirm` exactly once when registered and changes
nothing else — the modal stays open and no overlay-manager call is made;
in the duplicate implementation (`main.js`), `confirm()` additionally
closes the modal. -/
theorem confirm_leaves_modal_open (w : ModalWorld) :
    (BaseModal.confirm w).confirmCalls
        = w.confirmCalls + (if w.hasOnConfirm then 1 else 0)
      ∧ (BaseModal.confirm w).modalShow = w.modalShow
      ∧ (BaseModal.confirm w).ovTrace = w.ovTrace
      ∧ (BaseModal.confirm w).overlayCount = w.overlayCount
      ∧ (∀ lw : MainJs.LegacyModalWorld,
          (MainJs.confirm lw).modalShow = false) := by
  refine ⟨?_, ?_, ?_, ?_, ?_⟩
  · cases hc : w.hasOnConfirm <;> simp [BaseModal.confirm, hc]
  · cases hc : w.hasOnConfirm <;> simp [BaseModal.confirm, hc]
  · cases hc : w.hasOnConfirm <;> simp [BaseModal.confirm, hc]
  · cases hc : w.hasOnConfirm <;> simp [BaseModal.confirm, hc]
  · intro lw
    cases h1 : lw.hasOnConfirm <;> cases h2 : lw.hasOnCancel <;>
      simp [MainJs.confirm, MainJs.close, h1, h2]

/-- C6 (counterexample): in the duplicate implementation (`main.js`), a
click whose target is the backdrop itself closes the open modal. -/
theorem legacy_backdrop_click_closes :
    (MainJs.overlayClick MainJs.legacyOpenModal
        { targetIsOverlay := true, stopped := false,
          prevented := false }).1.modalShow = false
      ∧ MainJs.legacyOpenModal.modalShow = true := by
  refine ⟨rfl, rfl⟩

/-- C6 (amended): in the overlay-managed implementation (`part_000`), the
backdrop listeners never close the modal and never let the gesture reach
the background: a click only stops propagation, and wheel/touchmove only
prevent the default action, all leaving the modal state untouched; in the
duplicate implementation (`main.js`), a click targeting the backdrop
instead calls `close()`. -/
theorem backdrop_gestures_blocked (w : ModalWorld) (e : UiEvent) :
    BaseModal.overlayClick w e = (w, { e with stopped := true })
      ∧ BaseModal.overlayWheel w e = (w, { e with prevented := true })
      ∧ BaseModal.overlayTouchmove w e = (w, { e with prevented := true })
      ∧ (∀ (lw : MainJs.LegacyModalWorld) (e' : UiEvent),
          MainJs.overlayClick lw e'
            = (if e'.targetIsOverlay then MainJs.close lw else lw, e')) := by
  refine ⟨rfl, rfl, rfl, ?_⟩
  intro lw e'
  by_cases h : e'.targetIsOverlay <;> simp [MainJs.overlayClick, h]

/-- C7: `Preloader.show()` and `hide()` are idempotent, and a doubled call
touches the shared manager exactly once: from a hidden preloader two
`show()` calls record exactly one `incrementOverlay`, and from a visible
one two `hide()` calls record exactly one `decrementOverlay`. -/
theorem preloader_show_hide_idempotent (w : PreloaderWorld)
    (hel : w.hasElement = true) :
    Preloader.show' (Preloader.show' w) = Preloader.show' w
      ∧ Preloader.hide (Preloader.hide w) = Preloader.hide w
      ∧ (w.isVisible = false →
          (Preloader.show' (Preloader.show' w)).ovTrace
            = w.ovTrace ++ [.increment])
      ∧ (w.isVisible = true →
          (Preloader.hide (Preloader.hide w)).ovTrace
            = w.ovTrace ++ [.decrement]) := by
  cases hv : w.isVisible <;>
    simp [Preloader.show', Preloader.hide, hel, hv]

/-- Witness for C7 at a concrete freshly-constructed preloader. -/
theorem preloader_show_hide_idempotent_witness :
    Preloader.show' (Preloader.show' preloaderFresh)
        = Preloader.show' preloaderFresh
      ∧ (Preloader.show' (Preloader.show' preloaderFresh)).ovTrace
          = [.increment] := by
  have h := preloader_show_hide_idempotent preloaderFresh rfl
  exact ⟨h.1, by simpa using h.2.2.1 rfl⟩

/-- C8 (counterexample): `showError` opens the error modal but its body has
no return statement, so the caller receives nothing back. -/
theorem showError_returns_nothing :
    (showError 0 [] "Login failed" "Login Error").2 = none
      ∧ (showError 0 [] "Login failed" "Login Error").1.modalShow = true := by
  refine ⟨rfl, rfl⟩

/-- C8 (amended): each entry point constructs the corresponding variant
with the documented defaults and opens it (one `incrementOverlay` call);
`showConfirm` and `showEditCreateForm` return the constructed instance,
while `showError` returns nothing. -/
theorem entry_points_construct_and_open
    (c : Int) (tr : List OvOp) (msg t ot octx oclt : String)
    (hc dang em : Bool) (fields : List Field)
    (data : List (String × String)) :
    (showError c tr msg t).2 = none
      ∧ (showError c tr msg t).1.modalShow = true
      ∧ (showError c tr msg t).1.ovTrace = tr ++ [.increment]
      ∧ (showError c tr msg t).1.type = "error"
      ∧ (showError c tr msg t).1.title = jsOr t "Error"
      ∧ (showError c tr msg t).1.bodyHTML
          = errorBodyHTML (jsOr msg "An error occurred. Please try again.")
      ∧ (showConfirm c tr msg hc ot octx oclt dang).2
          = some (showConfirm c tr msg hc ot octx oclt dang).1
      ∧ (showConfirm c tr msg hc ot octx oclt dang).1.modalShow = true
      ∧ (showConfirm c tr msg hc ot octx oclt dang).1.ovTrace
          = tr ++ [.increment]
      ∧ (showConfirm c tr msg hc ot octx oclt dang).1.hasOnConfirm = hc
      ∧ (showConfirm c tr msg hc ot octx oclt dang).1.title
          = jsOr ot "Confirmation"
      ∧ (showEditCreateForm c tr fields hc ot data em).2
          = some (showEditCreateForm c tr fields hc ot data em).1
      ∧ (showEditCreateForm c tr fields hc ot data em).1.modalShow = true
      ∧ (showEditCreateForm c tr fields hc ot data em).1.ovTrace
          = tr ++ [.increment]
      ∧ (showEditCreateForm c tr fields hc ot data em).1.hasOnConfirm = hc
      ∧ (showEditCreateForm c tr fields hc ot data em).1.title
          = jsOr ot (if em then "Edit" else "Create") := by
  refine ⟨rfl, rfl, rfl, rfl, rfl, rfl, rfl, rfl, rfl, rfl, rfl, rfl, rfl,
    rfl, rfl, rfl⟩

/-- C9: `ErrorModal.setMessage` replaces the stored message and the
rendered body markup, and leaves everything else alone: no overlay-manager
call, the counter, the open/closed state, the listener, the title and the
callback counters are all unchanged. -/
theorem setMessage_replaces_only_body (w : ModalWorld) (m : String) :
    (ErrorModal.setMessage w m).message = m
      ∧ (ErrorModal.setMessage w m).bodyHTML = errorBodyHTML m
      ∧ (ErrorModal.setMessage w m).ovTrace = w.ovTrace
      ∧ (ErrorModal.setMessage w m).overlayCount = w.overlayCount
      ∧ (ErrorModal.setMessage w m).modalShow = w.modalShow
      ∧ (ErrorModal.setMessage w m).escInstalled = w.escInstalled
      ∧ (ErrorModal.setMessage w m).title = w.title
      ∧ (ErrorModal.setMessage w m).cancelCalls = w.cancelCalls
      ∧ (ErrorModal.setMessage w m).confirmCalls = w.confirmCalls := by
  refine ⟨rfl, rfl, rfl, rfl, rfl, rfl, rfl, rfl, rfl⟩

theorem setKey_mem (d : List (String × String)) (k v : String) :
    ((EditCreateModal.setKey d k v).any (fun p => p.1 == k)) = true := by
  unfold EditCreateModal.setKey
  by_cases h : d.any (fun p => p.1 == k)
  · simp only [if_pos h]
    rw [List.any_eq_true] at h ⊢
    obtain ⟨p, hp, hpk⟩ := h
    exact ⟨(k, v), List.mem_map.mpr ⟨p, hp, by simp [hpk]⟩, by simp⟩
  · simp only [if_neg h]
    rw [List.any_eq_true]
    exact ⟨(k, v), by simp, by simp⟩

theorem setKey_preserves (d : List (String × String)) (k v k' : String)
    (h : d.any (fun p => p.1 == k') = true) :
    (EditCreateModal.setKey d k v).any (fun p => p.1 == k') = true := by
  unfold EditCreateModal.setKey
  by_cases hk : d.any (fun p => p.1 == k)
  · simp only [if_pos hk]
    rw [List.any_eq_true] at h ⊢
    obtain ⟨p, hp, hpk⟩ := h
    by_cases hpe : (p.1 == k) = true
    · refine ⟨(k, v), List.mem_map.mpr ⟨p, hp, by simp [hpe]⟩, ?_⟩
      have h1 : p.1 = k' := by simpa using hpk
      have h2 : p.1 = k := by simpa using hpe
      simp [← h2, h1]
    · exact ⟨p, List.mem_map.mpr ⟨p, hp, by simp [hpe]⟩, hpk⟩
  · simp only [if_neg hk]
    rw [List.any_eq_true] at h ⊢
    obtain ⟨p, hp, hpk⟩ := h
    exact ⟨p, by simp [hp], hpk⟩

theorem foldl_setKey_preserves (form : List (Field × String)) :
    ∀ (d : List (String × String)) (k' : String),
      d.any (fun p => p.1 == k') = true →
      (form.foldl (fun d fv => EditCreateModal.setKey d fv.1.name fv.2)
          d).any (fun p => p.1 == k') = true := by
  induction form with
  | nil => intro d k' h; simpa using h
  | cons fv form ih =>
      intro d k' h
      exact ih _ _ (setKey_preserves d fv.1.name fv.2 k' h)

theorem foldl_setKey_has_keys (form : List (Field × String)) :
    ∀ (d : List (String × String)), ∀ fv ∈ form,
      ((form.foldl (fun d fv => EditCreateModal.setKey d fv.1.name fv.2)
          d).any (fun p => p.1 == fv.1.name)) = true := by
  induction form with
  | nil => intro d fv h; cases h
  | cons g form ih =>
      intro d fv h
      rcases List.mem_cons.mp h with h1 | h2
      · subst h1
        exact foldl_setKey_preserves form _ _ (setKey_mem d fv.1.name fv.2)
      · exact ih _ fv h2

/-- C5 (counterexample): a form whose only field is a non-required select
left on the `-- Select --` placeholder passes the browser validation, so
`submitForm` invokes `onConfirm` and closes — even though the select's
current value (the empty string) is not in its declared options list, which
falsifies the claimed equivalence. -/
theorem select_placeholder_still_submits :
    EditCreateModal.checkValidity selectOnlyFormOpen.form = true
      ∧ selectsFromOptions selectOnlyFormOpen.form = false
      ∧ (EditCreateModal.submitForm selectOnlyFormOpen).confirmCalls = 1
      ∧ (EditCreateModal.submitForm selectOnlyFormOpen).modalShow = false := by
  refine ⟨rfl, rfl, rfl, rfl⟩

/-- C5 (amended): with an `onConfirm` registered, `submitForm` invokes it
and closes exactly when every required field has a non-empty value (the
only constraint the rendered controls carry; a rendered select can only
hold the empty placeholder or one of its declared options, so a required
select passes exactly when a declared option is chosen, while a
non-required select may submit the placeholder value). On success
`onConfirm` is called exactly once with a mapping containing every field
name; on failure the state is completely unchanged, so the modal stays
open and `onConfirm` is not invoked. -/
theorem submitForm_validation (w : FormWorld)
    (hconf : w.hasOnConfirm = true) :
    (EditCreateModal.checkValidity w.form = true →
        (EditCreateModal.submitForm w).confirmCalls = w.confirmCalls + 1
          ∧ (EditCreateModal.submitForm w).lastPayload
              = some (EditCreateModal.getFormData w.form)
          ∧ (∀ fv ∈ w.form,
              ((EditCreateModal.getFormData w.form).any
                (fun p => p.1 == fv.1.name)) = true)
          ∧ (EditCreateModal.submitForm w).modalShow = false
          ∧ (EditCreateModal.submitForm w).ovTrace
              = w.ovTrace ++ [.decrement])
      ∧ (EditCreateModal.checkValidity w.form = false →
          EditCreateModal.submitForm w = w) := by
  constructor
  · intro hv
    refine ⟨?_, ?_, ?_, ?_, ?_⟩
    · simp [EditCreateModal.submitForm, hv, hconf,
        EditCreateModal.closeForm, close_spec]
    · simp [EditCreateModal.submitForm, hv, hconf,
        EditCreateModal.closeForm, close_spec]
    · intro fv hfv
      exact foldl_setKey_has_keys w.form [] fv hfv
    · simp [EditCreateModal.submitForm, hv, hconf,
        EditCreateModal.closeForm, close_spec]
    · simp [EditCreateModal.submitForm, hv, hconf,
        EditCreateModal.closeForm, close_spec]
  · intro hv
    simp [EditCreateModal.submitForm, hv]

/-- Witness for C5 at a concrete form whose required field is filled. -/
theorem submitForm_validation_witness :
    (EditCreateModal.submitForm filledFormOpen).confirmCalls = 1
      ∧ (EditCreateModal.submitForm filledFormOpen).modalShow = false := by
  have h := submitForm_validation filledFormOpen rfl
  have h1 := h.1 rfl
  exact ⟨h1.1.trans rfl, h1.2.2.2.1⟩

/-- Witness for C10 at a concrete state with two open overlays. -/
theorem double_close_double_decrements_witness :
    (BaseModal.close (BaseModal.close
        { freshModal with overlayCount := 2, hasOnCancel := true })).ovTrace
        = [.decrement, .decrement]
      ∧ (BaseModal.close (BaseModal.close
          { freshModal with overlayCount := 2, hasOnCancel := true
            })).cancelCalls = 2 := by
  have h := double_close_double_decrements
    { freshModal with overlayCount := 2, hasOnCancel := true } rfl
  exact ⟨h.1, by simpa using h.2.1⟩

end Fixtures
